import Mathlib

/-!
Shallow embedding of the `docker-helper` Rust crate (src/lib.rs, src/types.rs).

The crate talks to a local Docker daemon over a Unix socket.  We model the
daemon as a function from HTTP requests to HTTP responses; every library
operation is embedded as a function that, given a daemon, returns its result
together with the list of HTTP requests it issued (its trace).

A Rust `Result` value is modelled by `Res`: `ok` and `fail` are the two
`Result` constructors, and `fatal` models a Rust panic (the code contains one
`unwrap` on the UTF-8 decoding of the response body, src/lib.rs line 246).
Byte strings are `List Nat` with each entry below 256.
-/

/-- One HTTP request as assembled by `send_request` (src/lib.rs lines 200-244):
the URL path (with query string), whether the POST method was selected,
whether a DELETE custom request was selected, and the optional JSON body
bytes. -/
structure DRequest where
  path : String
  post : Bool
  delete : Bool
  body : Option (List Nat)
deriving DecidableEq

/-- One HTTP response from the daemon: the numeric status code and the raw
body bytes accumulated by the write callback. -/
structure DResponse where
  status : Nat
  body : List Nat
deriving DecidableEq

/-- The daemon, modelled as a deterministic map from requests to responses.
The crate opens a fresh connection per call, so one pure function suffices. -/
def Daemon : Type := DRequest → DResponse

/-- Outcome of a Rust call: `ok` and `fail` are `Result::Ok` / `Result::Err`
(with the anyhow error rendered as its message string), `fatal` is a panic. -/
inductive Res (α : Type) where
  | ok (a : α)
  | fail (msg : String)
  | fatal
deriving DecidableEq

/-- An operation of the library: from a daemon it computes its `Res` outcome
and the trace of HTTP requests it performed, in order. -/
def Op (α : Type) : Type := Daemon → Res α × List DRequest

/-- Sequencing of operations, as Rust's `?` operator: on `Ok` continue and
concatenate the traces, on `Err` or panic stop. -/
def opBind {α β : Type} (x : Op α) (f : α → Op β) : Op β := fun d =>
  match x d with
  | (Res.ok a, t) => ((f a d).1, t ++ (f a d).2)
  | (Res.fail m, t) => (Res.fail m, t)
  | (Res.fatal, t) => (Res.fatal, t)

/-- An operation that performs no request and returns `a` (Rust `Ok(a)`). -/
def opPure {α : Type} (a : α) : Op α := fun _ => (Res.ok a, [])

/-- An operation that performs no request and fails with message `m`. -/
def opFail {α : Type} (m : String) : Op α := fun _ => (Res.fail m, [])

/-! ## UTF-8 (Rust `std::str::from_utf8` and Rust string-to-bytes) -/

/-- UTF-8 encoding of one Unicode scalar value, as Rust encodes `char`. -/
def utf8EncodeChar (c : Nat) : List Nat :=
  if c < 128 then [c]
  else if c < 2048 then [192 + c / 64, 128 + c % 64]
  else if c < 65536 then [224 + c / 4096, 128 + (c / 64) % 64, 128 + c % 64]
  else [240 + c / 262144, 128 + (c / 4096) % 64, 128 + (c / 64) % 64, 128 + c % 64]

/-- The UTF-8 bytes of a string, as Rust's `str::as_bytes`. -/
def strBytes (s : String) : List Nat :=
  (s.data.map (fun c => utf8EncodeChar c.toNat)).flatten

/-- Is `b` a UTF-8 continuation byte (`10xxxxxx`)? -/
def isCont (b : Nat) : Bool := 128 ≤ b && b ≤ 191

/-- Strict UTF-8 decoding of a byte list into Unicode scalar values, with the
exact shortest-form and surrogate checks Rust's `std::str::from_utf8`
performs; `none` on any malformed sequence. -/
def utf8DecodeAux : List Nat → Option (List Char)
  | [] => some []
  | b :: rest =>
    if b < 128 then
      match utf8DecodeAux rest with
      | some cs => some (Char.ofNat b :: cs)
      | none => none
    else if 194 ≤ b && b ≤ 223 then
      match rest with
      | b2 :: rest2 =>
        if isCont b2 then
          match utf8DecodeAux rest2 with
          | some cs => some (Char.ofNat ((b - 192) * 64 + (b2 - 128)) :: cs)
          | none => none
        else none
      | [] => none
    else if 224 ≤ b && b ≤ 239 then
      match rest with
      | b2 :: b3 :: rest3 =>
        let lo2 : Nat := if b = 224 then 160 else 128
        let hi2 : Nat := if b = 237 then 159 else 191
        if (lo2 ≤ b2 && b2 ≤ hi2) && isCont b3 then
          match utf8DecodeAux rest3 with
          | some cs =>
            some (Char.ofNat ((b - 224) * 4096 + (b2 - 128) * 64 + (b3 - 128)) :: cs)
          | none => none
        else none
      | _ => none
    else if 240 ≤ b && b ≤ 244 then
      match rest with
      | b2 :: b3 :: b4 :: rest4 =>
        let lo2 : Nat := if b = 240 then 144 else 128
        let hi2 : Nat := if b = 244 then 143 else 191
        if (lo2 ≤ b2 && b2 ≤ hi2) && isCont b3 && isCont b4 then
          match utf8DecodeAux rest4 with
          | some cs =>
            some (Char.ofNat ((b - 240) * 262144 + (b2 - 128) * 4096 +
              (b3 - 128) * 64 + (b4 - 128)) :: cs)
          | none => none
        else none
      | _ => none
    else none

/-- Rust `std::str::from_utf8` as an optional string. -/
def utf8DecodeString (bs : List Nat) : Option String :=
  match utf8DecodeAux bs with
  | some cs => some (String.mk cs)
  | none => none

/-! ## Percent-encoding (the `urlencoding` crate) -/

/-- Bytes the `urlencoding` crate leaves unescaped: ASCII alphanumerics and
`-`, `.`, `_`, `~`. -/
def isUrlSafe (b : Nat) : Bool :=
  (65 ≤ b && b ≤ 90) || (97 ≤ b && b ≤ 122) || (48 ≤ b && b ≤ 57) ||
    b = 45 || b = 46 || b = 95 || b = 126

/-- Upper-case hexadecimal digit for a value below 16. -/
def hexDigit (n : Nat) : Char :=
  if n < 10 then Char.ofNat (48 + n) else Char.ofNat (55 + n)

/-- Percent-encoding of one byte: kept verbatim when safe, `%XX` otherwise. -/
def encByte (b : Nat) : List Char :=
  if isUrlSafe b then [Char.ofNat b]
  else [Char.ofNat 37, hexDigit (b / 16), hexDigit (b % 16)]

/-- `urlencoding::encode`: percent-encode the UTF-8 bytes of a string. -/
def urlencode (s : String) : String :=
  String.mk (((strBytes s).map encByte).flatten)

/-- Value of an ASCII hexadecimal digit character code, if it is one. -/
def hexVal (c : Nat) : Option Nat :=
  if 48 ≤ c && c ≤ 57 then some (c - 48)
  else if 65 ≤ c && c ≤ 70 then some (c - 55)
  else if 97 ≤ c && c ≤ 102 then some (c - 87)
  else none

/-- Percent-decoding at the byte level: `%XX` becomes the byte `XX`, any
other byte passes through. -/
def pctDecodeBytes : List Nat → Option (List Nat)
  | [] => some []
  | 37 :: h1 :: h2 :: rest =>
    match hexVal h1, hexVal h2 with
    | some v1, some v2 =>
      match pctDecodeBytes rest with
      | some bs => some ((v1 * 16 + v2) :: bs)
      | none => none
    | _, _ => none
  | 37 :: _ => none
  | b :: rest =>
    match pctDecodeBytes rest with
    | some bs => some (b :: bs)
    | none => none

/-- Percent-decoding of a query-parameter value back to a string. -/
def percentDecode (s : String) : Option String :=
  match pctDecodeBytes (strBytes s) with
  | some bs => utf8DecodeString bs
  | none => none

/-! ## JSON serialization (`serde_json::to_string` on the crate's types) -/

/-- Escaping of one character inside a JSON string literal, exactly as
`serde_json` emits it: `\"`, `\\`, the short control escapes, `\u00XX` for
the remaining control characters, everything else verbatim. -/
def jsonEscapeChar (c : Char) : List Char :=
  if c = Char.ofNat 34 then [Char.ofNat 92, Char.ofNat 34]
  else if c = Char.ofNat 92 then [Char.ofNat 92, Char.ofNat 92]
  else if c = Char.ofNat 8 then [Char.ofNat 92, Char.ofNat 98]
  else if c = Char.ofNat 12 then [Char.ofNat 92, Char.ofNat 102]
  else if c = Char.ofNat 10 then [Char.ofNat 92, Char.ofNat 110]
  else if c = Char.ofNat 13 then [Char.ofNat 92, Char.ofNat 114]
  else if c = Char.ofNat 9 then [Char.ofNat 92, Char.ofNat 116]
  else if c.toNat < 32 then
    [Char.ofNat 92, Char.ofNat 117, Char.ofNat 48, Char.ofNat 48,
      hexDigit (c.toNat / 16), hexDigit (c.toNat % 16)]
  else [c]

/-- A JSON string literal for `s`, quotes included. -/
def jsonStr (s : String) : String :=
  "\"" ++ String.mk ((s.data.map jsonEscapeChar).flatten) ++ "\""

/-- A JSON array of string literals, as serde serializes a `Vec<String>`. -/
def jsonStrArray (xs : List String) : String :=
  "[" ++ String.intercalate "," (xs.map jsonStr) ++ "]"

/-- `ImageFilter` (src/types.rs lines 30-33): `{ reference: Vec<String> }`,
serialized with its single `reference` field. -/
structure ImageFilter where
  reference : List String
deriving DecidableEq

/-- `serde_json::to_string` of an `ImageFilter`. -/
def jsonImageFilter (f : ImageFilter) : String :=
  "\x7b\"reference\":" ++ jsonStrArray f.reference ++ "\x7d"

/-- `ContainerFilter` (src/types.rs lines 35-38): `{ id: Vec<String> }`. -/
structure ContainerFilter where
  id : List String
deriving DecidableEq

/-- `serde_json::to_string` of a `ContainerFilter`. -/
def jsonContainerFilter (f : ContainerFilter) : String :=
  "\x7b\"id\":" ++ jsonStrArray f.id ++ "\x7d"

/-- `CreateContainer` (src/types.rs lines 10-16): image plus network mode,
with serde renames `Image` and `NetworkMode`. -/
structure CreateContainer where
  image : String
  network_mode : String
deriving DecidableEq

/-- `serde_json::to_string` of a `CreateContainer`, fields in declaration
order with their renamed keys. -/
def jsonCreateContainer (c : CreateContainer) : String :=
  "\x7b\"Image\":" ++ jsonStr c.image ++ ",\"NetworkMode\":" ++
    jsonStr c.network_mode ++ "\x7d"

/-- `PortBinding` (src/types.rs lines 4-8): `{ host_port: String }` with
serde rename `HostPort`. -/
structure PortBinding where
  host_port : String
deriving DecidableEq

/-- `serde_json::to_string` of a `PortBinding`. -/
def jsonPortBinding (p : PortBinding) : String :=
  "\x7b\"HostPort\":" ++ jsonStr p.host_port ++ "\x7d"

/-- Modelled from the spec: the port-binding variant of the container
creation body, absent from src (spec section 3: `{ image: string,
port_bindings: mapping from "port/proto" string to sequence of PortBinding }`
with wire keys `Image` and `PortBindings`).  The mapping is modelled as an
association list in serialization order. -/
structure CreateContainerPortBinding where
  image : String
  port_bindings : List (String × List PortBinding)
deriving DecidableEq

/-- Modelled from the spec: serialization of the port-binding variant, with
the `Image` and `PortBindings` wire keys (spec sections 3, 6 and 8). -/
def jsonCreateContainerPortBinding (c : CreateContainerPortBinding) : String :=
  "\x7b\"Image\":" ++ jsonStr c.image ++ ",\"PortBindings\":\x7b" ++
    String.intercalate ","
      (c.port_bindings.map (fun kv =>
        jsonStr kv.1 ++ ":[" ++
          String.intercalate "," (kv.2.map jsonPortBinding) ++ "]")) ++
    "\x7d\x7d"

/-- Modelled from the spec: the two alternative create-spec shapes as a
tagged choice — "these are two alternative request shapes for the same
underlying create container call and must not both be populated at once"
(spec section 3). -/
inductive CreateSpec where
  | networkMode (c : CreateContainer)
  | portBinding (c : CreateContainerPortBinding)

/-- Does a create spec populate the network-mode shape? -/
def hasNetworkModeShape : CreateSpec → Bool
  | CreateSpec.networkMode _ => true
  | CreateSpec.portBinding _ => false

/-- Does a create spec populate the port-binding shape? -/
def hasPortBindingShape : CreateSpec → Bool
  | CreateSpec.networkMode _ => false
  | CreateSpec.portBinding _ => true

/-! ## JSON parsing (`serde_json::from_str` on the crate's response types) -/

/-- A parsed JSON value.  Numbers keep their source text; the crate never
reads a numeric field, so no numeric interpretation is needed. -/
inductive Json where
  | str (s : String)
  | num (raw : String)
  | bool (b : Bool)
  | null
  | arr (items : List Json)
  | obj (fields : List (String × Json))

/-- Skip JSON whitespace (space, tab, line feed, carriage return). -/
def skipWs : List Char → List Char
  | c :: rest =>
    if c = ' ' || c = Char.ofNat 9 || c = Char.ofNat 10 || c = Char.ofNat 13 then
      skipWs rest
    else c :: rest
  | [] => []

/-- Parse the remainder of a JSON string literal, the opening quote already
consumed; returns the decoded characters and the rest of the input. -/
def parseJStrBody : List Char → Option (List Char × List Char)
  | [] => none
  | c :: rest =>
    if c = Char.ofNat 34 then some ([], rest)
    else if c = Char.ofNat 92 then
      match rest with
      | [] => none
      | e :: rest2 =>
        let dec : Option Char :=
          if e = Char.ofNat 34 then some (Char.ofNat 34)
          else if e = Char.ofNat 92 then some (Char.ofNat 92)
          else if e = Char.ofNat 47 then some (Char.ofNat 47)
          else if e = Char.ofNat 98 then some (Char.ofNat 8)
          else if e = Char.ofNat 102 then some (Char.ofNat 12)
          else if e = Char.ofNat 110 then some (Char.ofNat 10)
          else if e = Char.ofNat 114 then some (Char.ofNat 13)
          else if e = Char.ofNat 116 then some (Char.ofNat 9)
          else none
        match dec with
        | some ch =>
          match parseJStrBody rest2 with
          | some (cs, rem) => some (ch :: cs, rem)
          | none => none
        | none =>
          if e = Char.ofNat 117 then
            match rest2 with
            | h1 :: h2 :: h3 :: h4 :: rest6 =>
              match hexVal h1.toNat, hexVal h2.toNat, hexVal h3.toNat, hexVal h4.toNat with
              | some v1, some v2, some v3, some v4 =>
                match parseJStrBody rest6 with
                | some (cs, rem) =>
                  some (Char.ofNat (v1 * 4096 + v2 * 256 + v3 * 16 + v4) :: cs, rem)
                | none => none
              | _, _, _, _ => none
            | _ => none
          else none
    else
      match parseJStrBody rest with
      | some (cs, rem) => some (c :: cs, rem)
      | none => none

/-- Is `c` a character that may occur in a JSON number lexeme? -/
def isNumChar (c : Char) : Bool :=
  ('0' ≤ c && c ≤ '9') || c = '-' || c = '+' || c = '.' || c = 'e' || c = 'E'

/-- Take the longest run of number-lexeme characters. -/
def takeNum : List Char → List Char × List Char
  | [] => ([], [])
  | c :: rest =>
    if isNumChar c then
      match takeNum rest with
      | (lex, rem) => (c :: lex, rem)
    else ([], c :: rest)

/-- Does `pre` begin the list `cs`? -/
def beginsWith : List Char → List Char → Bool
  | [], _ => true
  | _ :: _, [] => false
  | p :: ps, c :: cs => p = c && beginsWith ps cs

mutual

/-- Parse one JSON value from `cs` (leading whitespace allowed), returning
the value and the remaining input.  `fuel` bounds the recursion depth; the
top-level entry point supplies more fuel than any input can consume. -/
def parseVal : Nat → List Char → Option (Json × List Char)
  | 0, _ => none
  | Nat.succ f, cs =>
    match skipWs cs with
    | [] => none
    | c :: rest =>
      if c = Char.ofNat 34 then
        match parseJStrBody rest with
        | some (s, rem) => some (Json.str (String.mk s), rem)
        | none => none
      else if c = Char.ofNat 123 then
        parseObjFields f rest true
      else if c = '[' then
        parseArrItems f rest true
      else if beginsWith ['t', 'r', 'u', 'e'] (c :: rest) then
        some (Json.bool true, (c :: rest).drop 4)
      else if beginsWith ['f', 'a', 'l', 's', 'e'] (c :: rest) then
        some (Json.bool false, (c :: rest).drop 5)
      else if beginsWith ['n', 'u', 'l', 'l'] (c :: rest) then
        some (Json.null, (c :: rest).drop 4)
      else if c = '-' || ('0' ≤ c && c ≤ '9') then
        match takeNum (c :: rest) with
        | (lex, rem) => some (Json.num (String.mk lex), rem)
      else none

/-- Parse the items of a JSON array, the opening bracket already consumed;
`first` is true before any item has been read. -/
def parseArrItems : Nat → List Char → Bool → Option (Json × List Char)
  | 0, _, _ => none
  | Nat.succ f, cs, first =>
    match skipWs cs with
    | [] => none
    | c :: rest =>
      if c = ']' then
        if first then some (Json.arr [], rest) else none
      else
        match parseVal f (c :: rest) with
        | some (v, rem) =>
          match skipWs rem with
          | ',' :: rem2 =>
            match parseArrItems f rem2 false with
            | some (Json.arr vs, rem3) => some (Json.arr (v :: vs), rem3)
            | _ => none
          | ']' :: rem2 => some (Json.arr [v], rem2)
          | _ => none
        | none => none

/-- Parse the fields of a JSON object, the opening brace already consumed. -/
def parseObjFields : Nat → List Char → Bool → Option (Json × List Char)
  | 0, _, _ => none
  | Nat.succ f, cs, first =>
    match skipWs cs with
    | [] => none
    | c :: rest =>
      if c = Char.ofNat 125 then
        if first then some (Json.obj [], rest) else none
      else if c = Char.ofNat 34 then
        match parseJStrBody rest with
        | some (k, rem) =>
          match skipWs rem with
          | ':' :: rem2 =>
            match parseVal f rem2 with
            | some (v, rem3) =>
              match skipWs rem3 with
              | ',' :: rem4 =>
                match parseObjFields f rem4 false with
                | some (Json.obj fs, rem5) =>
                  some (Json.obj ((String.mk k, v) :: fs), rem5)
                | _ => none
              | c2 :: rem4 =>
                if c2 = Char.ofNat 125 then
                  some (Json.obj [(String.mk k, v)], rem4)
                else none
              | _ => none
            | none => none
          | _ => none
        | none => none
      else none

end

/-- `serde_json::from_str` up to the typed decoding step: parse a complete
JSON document, requiring only trailing whitespace after the value. -/
def parseJson (s : String) : Option Json :=
  match parseVal (2 * s.data.length + 8) s.data with
  | some (v, rem) =>
    match skipWs rem with
    | [] => some v
    | _ :: _ => none
  | none => none

/-! ## Typed JSON decoding (serde `Deserialize` on the response types) -/

/-- `ImageDescriptor` (src/types.rs lines 24-28): `{ id }`, wire key `Id`. -/
structure ImageDescriptor where
  id : String
deriving DecidableEq

/-- `CreateContainerResult` (src/types.rs lines 18-22): `{ id }`, wire key
`Id`. -/
structure CreateContainerResult where
  id : String
deriving DecidableEq

/-- `Network` (src/types.rs lines 54-58): `{ ip_address }`, wire key
`IPAddress`. -/
structure Network where
  ip_address : String
deriving DecidableEq

/-- `NetworkSettings` (src/types.rs lines 48-52): the `Networks` wire field,
a map from network name to `Network`.  Rust uses a `HashMap`; it is modelled
as an association list carrying the daemon's JSON field order, since the
crate only ever asks for some arbitrary entry of it. -/
structure NetworkSettings where
  networks : List (String × Network)
deriving DecidableEq

/-- `ContainerDescriptor` (src/types.rs lines 40-46): wire keys `Id` and
`NetworkSettings`. -/
structure ContainerDescriptor where
  id : String
  network_settings : NetworkSettings
deriving DecidableEq

/-- Look up a field of a JSON object by key (first occurrence). -/
def jLookup (fields : List (String × Json)) (key : String) : Option Json :=
  match fields.filter (fun kv => kv.1 = key) with
  | kv :: _ => some kv.2
  | [] => none

/-- Decode a JSON value as a string, as serde does for a `String` field. -/
def decodeStr : Json → Option String
  | Json.str s => some s
  | _ => none

/-- Decode an `ImageDescriptor` from a JSON value. -/
def decodeImageDescriptor : Json → Option ImageDescriptor
  | Json.obj fields =>
    match jLookup fields "Id" with
    | some v =>
      match decodeStr v with
      | some s => some { id := s }
      | none => none
    | none => none
  | _ => none

/-- Decode a `CreateContainerResult` from a JSON value. -/
def decodeCreateContainerResult : Json → Option CreateContainerResult
  | Json.obj fields =>
    match jLookup fields "Id" with
    | some v =>
      match decodeStr v with
      | some s => some { id := s }
      | none => none
    | none => none
  | _ => none

/-- Decode a `Network` from a JSON value. -/
def decodeNetwork : Json → Option Network
  | Json.obj fields =>
    match jLookup fields "IPAddress" with
    | some v =>
      match decodeStr v with
      | some s => some { ip_address := s }
      | none => none
    | none => none
  | _ => none

/-- Decode the `Networks` map: every field of the object is a named
`Network`. -/
def decodeNetworksMap : Json → Option (List (String × Network))
  | Json.obj fields =>
    fields.mapM (fun kv =>
      match decodeNetwork kv.2 with
      | some n => some (kv.1, n)
      | none => none)
  | _ => none

/-- Decode a `NetworkSettings` from a JSON value. -/
def decodeNetworkSettings : Json → Option NetworkSettings
  | Json.obj fields =>
    match jLookup fields "Networks" with
    | some v =>
      match decodeNetworksMap v with
      | some m => some { networks := m }
      | none => none
    | none => none
  | _ => none

/-- Decode a `ContainerDescriptor` from a JSON value. -/
def decodeContainerDescriptor : Json → Option ContainerDescriptor
  | Json.obj fields =>
    match jLookup fields "Id", jLookup fields "NetworkSettings" with
    | some vid, some vns =>
      match decodeStr vid, decodeNetworkSettings vns with
      | some s, some ns => some { id := s, network_settings := ns }
      | _, _ => none
    | _, _ => none
  | _ => none

/-- Decode a JSON array elementwise. -/
def decodeArray {α : Type} (dec : Json → Option α) : Json → Option (List α)
  | Json.arr items => items.mapM dec
  | _ => none

/-- `serde_json::from_str::<Vec<ImageDescriptor>>`. -/
def parseImageList (s : String) : Option (List ImageDescriptor) :=
  match parseJson s with
  | some j => decodeArray decodeImageDescriptor j
  | none => none

/-- `serde_json::from_str::<Vec<ContainerDescriptor>>`. -/
def parseContainerList (s : String) : Option (List ContainerDescriptor) :=
  match parseJson s with
  | some j => decodeArray decodeContainerDescriptor j
  | none => none

/-- `serde_json::from_str::<CreateContainerResult>`. -/
def parseCreateContainerResult (s : String) : Option CreateContainerResult :=
  match parseJson s with
  | some j => decodeCreateContainerResult j
  | none => none

/-! ## The operations (src/lib.rs) -/

/-- The status-and-body interpretation done at the end of `send_request`
(src/lib.rs lines 246-250): decode the accumulated body with
`std::str::from_utf8(..).unwrap()` — a panic (`Res.fatal`) on invalid
UTF-8 — then return the body text on a 200..=204 status and otherwise the
error `Docker API call (<path>) failed: <body>`. -/
def respond (d : Daemon) (req : DRequest) : Res String :=
  match utf8DecodeString (d req).body with
  | none => Res.fatal
  | some data =>
    if 200 ≤ (d req).status && (d req).status ≤ 204 then Res.ok data
    else Res.fail ("Docker API call (" ++ req.path ++ ") failed: " ++ data)

/-- `send_request` (src/lib.rs lines 200-251): perform one request against
the daemon and interpret the response with `respond`. -/
def send_request (path : String) (post del : Bool) (maybe_json_data : Option (List Nat)) :
    Op String := fun d =>
  (respond d (DRequest.mk path post del maybe_json_data),
    [DRequest.mk path post del maybe_json_data])

/-- The request issued by `pull_image` for a given image name. -/
def pullImageReq (image_name : String) : DRequest :=
  DRequest.mk ("/images/create?fromImage=" ++ image_name) true false none

/-- `pull_image` (src/lib.rs lines 58-62): POST
`/images/create?fromImage=<image_name>`, discard the body. -/
def pull_image (image_name : String) : Op Unit :=
  opBind (send_request ("/images/create?fromImage=" ++ image_name) true false none)
    (fun _ => opPure ())

/-- The request issued by `start_container` for a given id. -/
def startContainerReq (id : String) : DRequest :=
  DRequest.mk ("/containers/" ++ id ++ "/start") true false none

/-- `start_container` (src/lib.rs lines 88-92): POST
`/containers/<id>/start`. -/
def start_container (id : String) : Op Unit :=
  opBind (send_request ("/containers/" ++ id ++ "/start") true false none)
    (fun _ => opPure ())

/-- The request issued by `stop_container` for a given id. -/
def stopContainerReq (id : String) : DRequest :=
  DRequest.mk ("/containers/" ++ id ++ "/stop") true false none

/-- `stop_container` (src/lib.rs lines 103-107): POST
`/containers/<id>/stop`. -/
def stop_container (id : String) : Op Unit :=
  opBind (send_request ("/containers/" ++ id ++ "/stop") true false none)
    (fun _ => opPure ())

/-- The request issued by `delete_container` for a given id. -/
def deleteContainerReq (id : String) : DRequest :=
  DRequest.mk ("/containers/" ++ id) false true none

/-- `delete_container` (src/lib.rs lines 118-122): DELETE
`/containers/<id>`. -/
def delete_container (id : String) : Op Unit :=
  opBind (send_request ("/containers/" ++ id) false true none)
    (fun _ => opPure ())

/-- The request issued by `prune_containers`. -/
def pruneContainersReq : DRequest :=
  DRequest.mk "/containers/prune" true false none

/-- `prune_containers` (src/lib.rs lines 130-134): POST `/containers/prune`,
with the result of `send_request` bound to `_` — its `Ok`/`Err` outcome is
discarded and `Ok(())` returned; a panic inside `send_request` still
propagates. -/
def prune_containers : Op Unit := fun d =>
  match send_request "/containers/prune" true false none d with
  | (Res.fatal, t) => (Res.fatal, t)
  | (_, t) => (Res.ok (), t)

/-- The query path built by `find_images` for a reference. -/
def findImagesPath (reference : String) : String :=
  "/images/json?filters=" ++ urlencode (jsonImageFilter (ImageFilter.mk [reference]))

/-- The request issued by `find_images`. -/
def findImagesReq (reference : String) : DRequest :=
  DRequest.mk (findImagesPath reference) false false none

/-- `find_images` (src/lib.rs lines 178-188): GET `/images/json` with the
URL-encoded JSON filter `{"reference":[<reference>]}`, then parse the body
as a `Vec<ImageDescriptor>`. -/
def find_images (reference : String) : Op (List ImageDescriptor) :=
  opBind (send_request (findImagesPath reference) false false none)
    (fun resp =>
      match parseImageList resp with
      | some result => opPure result
      | none => opFail ("Failed to parse find_images response json: " ++ resp))

/-- The query path built by `find_containers` for an id. -/
def findContainersPath (id : String) : String :=
  "/containers/json?filters=" ++ urlencode (jsonContainerFilter (ContainerFilter.mk [id]))

/-- The request issued by `find_containers`. -/
def findContainersReq (id : String) : DRequest :=
  DRequest.mk (findContainersPath id) false false none

/-- `find_containers` (src/lib.rs lines 161-170): GET `/containers/json`
with the URL-encoded JSON filter `{"id":[<id>]}`, then parse the body as a
`Vec<ContainerDescriptor>`.  The parse-failure context message says
`find_images`, exactly as in the source (src/lib.rs line 168). -/
def find_containers (id : String) : Op (List ContainerDescriptor) :=
  opBind (send_request (findContainersPath id) false false none)
    (fun resp =>
      match parseContainerList resp with
      | some result => opPure result
      | none => opFail ("Failed to parse find_images response json: " ++ resp))

/-- `get_container_ip` (src/lib.rs lines 142-153): first matching container,
first entry of its networks map, its `ip_address`; with a distinct context
message for an empty match list and for an empty networks map. -/
def get_container_ip (id : String) : Op String :=
  opBind (find_containers id) (fun containers =>
    match containers with
    | [] => opFail ("No containers found with ID = " ++ id)
    | c :: _ =>
      match c.network_settings.networks with
      | [] => opFail ("No network found for container with ID = " ++ id)
      | (_, n) :: _ => opPure n.ip_address)

/-- The request issued by `create_container` for a name and body bytes. -/
def createContainerReq (container_name : String) (body : List Nat) : DRequest :=
  DRequest.mk ("/containers/create?name=" ++ container_name) true false (some body)

/-- The shared tail of `create_container` (src/lib.rs lines 190-198): POST
`/containers/create?name=<name>` with the serialized request as JSON body,
then parse the response as a `CreateContainerResult` and return its id. -/
def create_container_raw (container_name : String) (json : String) : Op String :=
  opBind (send_request ("/containers/create?name=" ++ container_name) true false
      (some (strBytes json)))
    (fun resp =>
      match parseCreateContainerResult resp with
      | some result => opPure result.id
      | none =>
        opFail ("Failed to parse create_container response json: " ++ resp))

/-- `create_container` (src/lib.rs lines 190-198) applied to the
network-mode `CreateContainer` request struct of src/types.rs. -/
def create_container (container_name : String) (request : CreateContainer) : Op String :=
  create_container_raw container_name (jsonCreateContainer request)

/-- `start_container_with_network_mode` (src/lib.rs lines 28-47):
find images; pull when none matched; create the container with the given
network mode; start it; return its id. -/
def start_container_with_network_mode (container_name image network_mode : String) :
    Op String :=
  opBind (find_images image) (fun existing_images =>
    opBind (if existing_images.isEmpty then pull_image image else opPure ())
      (fun _ =>
        opBind (create_container container_name
            (CreateContainer.mk image network_mode))
          (fun id =>
            opBind (start_container id) (fun _ => opPure id))))

/-- Modelled from the spec: the port-binding create spec built by
`start_container_with_port_binding`, absent from src — map
`"<container_port>/tcp"` to a one-element sequence containing
`{host_port: "<host_port>"}` (spec section 4.2). -/
def portBindingSpec (image : String) (container_port host_port : Nat) :
    CreateContainerPortBinding :=
  CreateContainerPortBinding.mk image
    [(toString container_port ++ "/tcp", [PortBinding.mk (toString host_port)])]

/-- Modelled from the spec: `start_container_with_port_binding`, absent from
src — the same find / pull-if-absent / create / start sequence as the
network-mode sibling, with the port-binding create spec (spec sections 4.2
and 8). -/
def start_container_with_port_binding (container_name image : String)
    (container_port host_port : Nat) : Op String :=
  opBind (find_images image) (fun existing_images =>
    opBind (if existing_images.isEmpty then pull_image image else opPure ())
      (fun _ =>
        opBind (create_container_raw container_name
            (jsonCreateContainerPortBinding (portBindingSpec image container_port host_port)))
          (fun id =>
            opBind (start_container id) (fun _ => opPure id))))

/-- `stop_and_cleanup_container` (src/lib.rs lines 74-77): stop the
container, then delete it. -/
def stop_and_cleanup_container (id : String) : Op Unit :=
  opBind (stop_container id) (fun _ => delete_container id)

/-- Modelled from the spec: the port-binding variant of
`stop_and_cleanup_container`, absent from src — "stop_container then either
prune_containers (port-binding variant) or delete_container (network-mode
variant)" (spec section 4.2). -/
def stop_and_cleanup_container_port_binding (id : String) : Op Unit :=
  opBind (stop_container id) (fun _ => prune_containers)

/-- The shared shape of the two composite start operations: find the image,
pull when none matched, create from the serialized body `json`, start, and
return the new container's id.  Both `start_container_with_network_mode` and
`start_container_with_port_binding` are definitionally instances of it. -/
def compositeStart (container_name image json : String) : Op String :=
  opBind (find_images image) (fun existing_images =>
    opBind (if existing_images.isEmpty then pull_image image else opPure ())
      (fun _ =>
        opBind (create_container_raw container_name json)
          (fun id =>
            opBind (start_container id) (fun _ => opPure id))))

/-- A daemon returning the same response to every request. -/
def constDaemon (resp : DResponse) : Daemon := fun _ => resp

/-- A daemon on which a composite start succeeds: listing queries return an
empty array, the creation request returns id `cid1`, every other action
returns status 204 with no body. -/
def dHappy : Daemon := fun req =>
  if req.path = "/containers/create?name=test" then
    DResponse.mk 201 (strBytes "\x7b\"Id\":\"cid1\"\x7d")
  else if req.post = false && req.delete = false then
    DResponse.mk 200 (strBytes "[]")
  else DResponse.mk 204 []

/-- A daemon on which stopping succeeds (status 204) but every other
request — in particular pruning — fails with status 500. -/
def dStopOkPruneFail : Daemon := fun req =>
  if req = stopContainerReq "c1" then DResponse.mk 204 []
  else DResponse.mk 500 (strBytes "prune broke")

/-! ## Basic evaluation lemmas -/

/-- String append acts as list append on the underlying characters. -/
theorem strDataAppend (a b : String) : (a ++ b).data = a.data ++ b.data := rfl

/-- Two strings that extend literals differing within their common prefix
are distinct. -/
theorem append_ne_of_take_ne (p q a b : String) (n : Nat)
    (hp : n ≤ p.data.length) (hq : n ≤ q.data.length)
    (hne : p.data.take n ≠ q.data.take n) : p ++ a ≠ q ++ b := by
  intro h
  have hd : (p ++ a).data = (q ++ b).data := congrArg String.data h
  rw [strDataAppend, strDataAppend] at hd
  have ht := congrArg (List.take n) hd
  rw [List.take_append_of_le_length hp, List.take_append_of_le_length hq] at ht
  exact hne ht

/-- The pull request differs from any image-listing request. -/
theorem pullReq_ne_findImagesReq (i r : String) :
    pullImageReq i ≠ findImagesReq r := by
  intro h
  have hp : ("/images/create?fromImage=" ++ i : String) =
      "/images/json?filters=" ++ urlencode (jsonImageFilter (ImageFilter.mk [r])) :=
    congrArg DRequest.path h
  exact append_ne_of_take_ne _ _ _ _ 9 (by decide) (by decide) (by decide) hp

/-- The pull request differs from any container-start request. -/
theorem pullReq_ne_startReq (i id : String) :
    pullImageReq i ≠ startContainerReq id := by
  intro h
  have hp : ("/images/create?fromImage=" ++ i : String) =
      "/containers/" ++ (id ++ "/start") := by
    have := congrArg DRequest.path h
    simpa [pullImageReq, startContainerReq, String.append_assoc] using this
  exact append_ne_of_take_ne _ _ _ _ 2 (by decide) (by decide) (by decide) hp

/-- The pull request differs from any container-creation request, which
carries a body. -/
theorem pullReq_ne_createReq (i n : String) (b : List Nat) :
    pullImageReq i ≠ createContainerReq n b := by
  intro h
  exact Option.noConfusion (congrArg DRequest.body h)

/-- `respond` when the body text is known. -/
theorem respond_eval (d : Daemon) (req : DRequest) (s : String)
    (h : utf8DecodeString (d req).body = some s) :
    respond d req =
      (if 200 ≤ (d req).status && (d req).status ≤ 204 then Res.ok s
       else Res.fail ("Docker API call (" ++ req.path ++ ") failed: " ++ s)) := by
  unfold respond
  rw [h]

/-- `respond` panics exactly on an undecodable body. -/
theorem respond_fatal (d : Daemon) (req : DRequest)
    (h : utf8DecodeString (d req).body = none) : respond d req = Res.fatal := by
  unfold respond
  rw [h]

/-- Evaluation of the body-less single-request operations
(`pull_image`, `start_container`, `stop_container`, `delete_container`). -/
theorem simpleOp_eval (p : String) (a b : Bool) (d : Daemon) :
    opBind (send_request p a b none) (fun _ => opPure ()) d =
      (match respond d (DRequest.mk p a b none) with
        | Res.ok _ => Res.ok ()
        | Res.fail m => Res.fail m
        | Res.fatal => Res.fatal,
       [DRequest.mk p a b none]) := by
  cases hr : respond d (DRequest.mk p a b none) <;>
    simp [opBind, send_request, opPure, hr]

/-- Evaluation of `find_images` as a case analysis on the daemon response. -/
theorem find_images_eval (r : String) (d : Daemon) :
    find_images r d =
      (match respond d (findImagesReq r) with
        | Res.ok resp =>
          match parseImageList resp with
          | some result => Res.ok result
          | none => Res.fail ("Failed to parse find_images response json: " ++ resp)
        | Res.fail m => Res.fail m
        | Res.fatal => Res.fatal,
       [findImagesReq r]) := by
  cases hr : respond d (findImagesReq r) with
  | ok resp =>
    simp only [findImagesReq] at hr
    cases hp : parseImageList resp <;>
      simp [find_images, opBind, send_request, opPure, opFail, findImagesReq, hr, hp]
  | fail m =>
    simp only [findImagesReq] at hr
    simp [find_images, opBind, send_request, findImagesReq, hr]
  | fatal =>
    simp only [findImagesReq] at hr
    simp [find_images, opBind, send_request, findImagesReq, hr]

/-- Evaluation of `find_containers` as a case analysis on the daemon
response. -/
theorem find_containers_eval (i : String) (d : Daemon) :
    find_containers i d =
      (match respond d (findContainersReq i) with
        | Res.ok resp =>
          match parseContainerList resp with
          | some result => Res.ok result
          | none => Res.fail ("Failed to parse find_images response json: " ++ resp)
        | Res.fail m => Res.fail m
        | Res.fatal => Res.fatal,
       [findContainersReq i]) := by
  cases hr : respond d (findContainersReq i) with
  | ok resp =>
    simp only [findContainersReq] at hr
    cases hp : parseContainerList resp <;>
      simp [find_containers, opBind, send_request, opPure, opFail, findContainersReq, hr, hp]
  | fail m =>
    simp only [findContainersReq] at hr
    simp [find_containers, opBind, send_request, findContainersReq, hr]
  | fatal =>
    simp only [findContainersReq] at hr
    simp [find_containers, opBind, send_request, findContainersReq, hr]

/-- Evaluation of `create_container_raw` as a case analysis on the daemon
response. -/
theorem create_container_raw_eval (n js : String) (d : Daemon) :
    create_container_raw n js d =
      (match respond d (createContainerReq n (strBytes js)) with
        | Res.ok resp =>
          match parseCreateContainerResult resp with
          | some result => Res.ok result.id
          | none => Res.fail ("Failed to parse create_container response json: " ++ resp)
        | Res.fail m => Res.fail m
        | Res.fatal => Res.fatal,
       [createContainerReq n (strBytes js)]) := by
  cases hr : respond d (createContainerReq n (strBytes js)) with
  | ok resp =>
    simp only [createContainerReq] at hr
    cases hp : parseCreateContainerResult resp <;>
      simp [create_container_raw, opBind, send_request, opPure, opFail,
        createContainerReq, hr, hp]
  | fail m =>
    simp only [createContainerReq] at hr
    simp [create_container_raw, opBind, send_request, createContainerReq, hr]
  | fatal =>
    simp only [createContainerReq] at hr
    simp [create_container_raw, opBind, send_request, createContainerReq, hr]

/-- Evaluation of `prune_containers`: the `Ok`/`Err` outcome of the
underlying request is discarded. -/
theorem prune_containers_eval (d : Daemon) :
    prune_containers d =
      (match respond d pruneContainersReq with
        | Res.fatal => Res.fatal
        | _ => Res.ok (),
       [pruneContainersReq]) := by
  cases hr : respond d pruneContainersReq <;>
    · simp only [pruneContainersReq] at hr
      simp [prune_containers, send_request, pruneContainersReq, hr]

/-- Evaluation of `get_container_ip` on top of `find_containers`. -/
theorem get_container_ip_eval (id : String) (d : Daemon) :
    get_container_ip id d =
      (match (find_containers id d).1 with
        | Res.ok [] => Res.fail ("No containers found with ID = " ++ id)
        | Res.ok (c :: _) =>
          match c.network_settings.networks with
          | [] => Res.fail ("No network found for container with ID = " ++ id)
          | (_, n) :: _ => Res.ok n.ip_address
        | Res.fail m => Res.fail m
        | Res.fatal => Res.fatal,
       (find_containers id d).2) := by
  cases hfc : find_containers id d with
  | mk r t =>
    cases r with
    | ok l =>
      cases l with
      | nil => simp [get_container_ip, opBind, hfc, opFail]
      | cons c rest =>
        cases hn : c.network_settings.networks with
        | nil => simp [get_container_ip, opBind, hfc, opFail, hn]
        | cons p ps =>
          cases p with
          | mk nm nw => simp [get_container_ip, opBind, hfc, opPure, hn]
    | fail m => simp [get_container_ip, opBind, hfc]
    | fatal => simp [get_container_ip, opBind, hfc]

/-- `respond` succeeds with the body text when it decodes and the status is
in 200..=204. -/
theorem respond_ok_of (d : Daemon) (req : DRequest) (s : String)
    (h : utf8DecodeString (d req).body = some s)
    (h2 : 200 ≤ (d req).status) (h3 : (d req).status ≤ 204) :
    respond d req = Res.ok s := by
  unfold respond
  rw [h]
  simp [h2, h3]

/-- `respond` fails with the diagnostic message when the body decodes and
the status is outside 200..=204. -/
theorem respond_fail_of (d : Daemon) (req : DRequest) (s : String)
    (h : utf8DecodeString (d req).body = some s)
    (h2 : ¬(200 ≤ (d req).status ∧ (d req).status ≤ 204)) :
    respond d req =
      Res.fail ("Docker API call (" ++ req.path ++ ") failed: " ++ s) := by
  unfold respond
  rw [h]
  simp [h2]

/-- C1 counterexample: on daemon status 205 — a 2xx status — `pull_image`
does not succeed, because `send_request` accepts only 200..=204
(src/lib.rs line 248). -/
theorem C1_counterexample :
    (200 ≤ 205 ∧ 205 ≤ 299) ∧
    (pull_image "ubuntu:20.04" (constDaemon (DResponse.mk 205 []))).1 ≠ Res.ok () := by
  constructor
  · decide
  · decide

/-- C1 (amended): for every image name, `pull_image` issues exactly one
request, a POST (no DELETE, no body) to `/images/create?fromImage=<name>`,
and — whenever the response body is decodable text — it succeeds iff the
daemon status is in 200..=204. -/
theorem C1_pull_image (image_name : String) (d : Daemon) (s : String)
    (h : utf8DecodeString (d (pullImageReq image_name)).body = some s) :
    (pull_image image_name d).2 = [pullImageReq image_name] ∧
    pullImageReq image_name =
      DRequest.mk ("/images/create?fromImage=" ++ image_name) true false none ∧
    ((pull_image image_name d).1 = Res.ok () ↔
      200 ≤ (d (pullImageReq image_name)).status ∧
        (d (pullImageReq image_name)).status ≤ 204) := by
  simp only [pullImageReq] at h ⊢
  have he := simpleOp_eval ("/images/create?fromImage=" ++ image_name) true false d
  refine ⟨?_, trivial, ?_⟩
  · show (opBind (send_request ("/images/create?fromImage=" ++ image_name) true false none)
      (fun _ => opPure ()) d).2 = _
    rw [he]
  · show (opBind (send_request ("/images/create?fromImage=" ++ image_name) true false none)
      (fun _ => opPure ()) d).1 = Res.ok () ↔ _
    rw [he]
    by_cases hst : 200 ≤ (d (DRequest.mk ("/images/create?fromImage=" ++ image_name)
        true false none)).status ∧
        (d (DRequest.mk ("/images/create?fromImage=" ++ image_name) true false none)).status ≤ 204
    · rw [respond_ok_of d _ s h hst.1 hst.2]
      exact iff_of_true rfl hst
    · rw [respond_fail_of d _ s h hst]
      exact iff_of_false (by simp) hst

/-- C1 witness: a concrete daemon with status 200 and empty body makes
`pull_image` succeed with the single expected POST request. -/
theorem C1_witness :
    (pull_image "ubuntu:20.04" (constDaemon (DResponse.mk 200 []))).2 =
      [pullImageReq "ubuntu:20.04"] ∧
    ((pull_image "ubuntu:20.04" (constDaemon (DResponse.mk 200 []))).1 = Res.ok () ↔
      200 ≤ (constDaemon (DResponse.mk 200 []) (pullImageReq "ubuntu:20.04")).status ∧
        (constDaemon (DResponse.mk 200 []) (pullImageReq "ubuntu:20.04")).status ≤ 204) :=
  ⟨(C1_pull_image "ubuntu:20.04" (constDaemon (DResponse.mk 200 [])) "" (by decide)).1,
   (C1_pull_image "ubuntu:20.04" (constDaemon (DResponse.mk 200 [])) "" (by decide)).2.2⟩

/-- Evaluation of `pull_image` via its single request. -/
theorem pull_image_eval (i : String) (d : Daemon) :
    pull_image i d =
      (match respond d (pullImageReq i) with
        | Res.ok _ => Res.ok ()
        | Res.fail m => Res.fail m
        | Res.fatal => Res.fatal,
       [pullImageReq i]) :=
  simpleOp_eval ("/images/create?fromImage=" ++ i) true false d

/-- Evaluation of `start_container` via its single request. -/
theorem start_container_eval (id : String) (d : Daemon) :
    start_container id d =
      (match respond d (startContainerReq id) with
        | Res.ok _ => Res.ok ()
        | Res.fail m => Res.fail m
        | Res.fatal => Res.fatal,
       [startContainerReq id]) :=
  simpleOp_eval ("/containers/" ++ id ++ "/start") true false d

/-- Evaluation of `stop_container` via its single request. -/
theorem stop_container_eval (id : String) (d : Daemon) :
    stop_container id d =
      (match respond d (stopContainerReq id) with
        | Res.ok _ => Res.ok ()
        | Res.fail m => Res.fail m
        | Res.fatal => Res.fatal,
       [stopContainerReq id]) :=
  simpleOp_eval ("/containers/" ++ id ++ "/stop") true false d

/-- Evaluation of `delete_container` via its single request. -/
theorem delete_container_eval (id : String) (d : Daemon) :
    delete_container id d =
      (match respond d (deleteContainerReq id) with
        | Res.ok _ => Res.ok ()
        | Res.fail m => Res.fail m
        | Res.fatal => Res.fatal,
       [deleteContainerReq id]) := by
  have h := simpleOp_eval ("/containers/" ++ id) false true d
  exact h

/-- C2: whenever the daemon status is outside 200..=204 (and the body is
decodable text), the call fails with the API error message, which contains
the request path and the raw body text as substrings; every operation that
reaches such a response propagates exactly this error. -/
theorem C2_api_error (d : Daemon) (req : DRequest) (s : String)
    (hdec : utf8DecodeString (d req).body = some s)
    (hstatus : ¬(200 ≤ (d req).status ∧ (d req).status ≤ 204)) :
    respond d req = Res.fail ("Docker API call (" ++ req.path ++ ") failed: " ++ s) ∧
    (∃ l r, ("Docker API call (" ++ req.path ++ ") failed: " ++ s).data =
      l ++ req.path.data ++ r) ∧
    (∃ l r, ("Docker API call (" ++ req.path ++ ") failed: " ++ s).data =
      l ++ s.data ++ r) ∧
    (∀ i, req = pullImageReq i → (pull_image i d).1 =
      Res.fail ("Docker API call (" ++ req.path ++ ") failed: " ++ s)) ∧
    (∀ id, req = startContainerReq id → (start_container id d).1 =
      Res.fail ("Docker API call (" ++ req.path ++ ") failed: " ++ s)) ∧
    (∀ id, req = stopContainerReq id → (stop_container id d).1 =
      Res.fail ("Docker API call (" ++ req.path ++ ") failed: " ++ s)) ∧
    (∀ id, req = deleteContainerReq id → (delete_container id d).1 =
      Res.fail ("Docker API call (" ++ req.path ++ ") failed: " ++ s)) ∧
    (∀ r2, req = findImagesReq r2 → (find_images r2 d).1 =
      Res.fail ("Docker API call (" ++ req.path ++ ") failed: " ++ s)) ∧
    (∀ i, req = findContainersReq i → (find_containers i d).1 =
      Res.fail ("Docker API call (" ++ req.path ++ ") failed: " ++ s)) ∧
    (∀ n js, req = createContainerReq n (strBytes js) → (create_container_raw n js d).1 =
      Res.fail ("Docker API call (" ++ req.path ++ ") failed: " ++ s)) := by
  have hfail := respond_fail_of d req s hdec hstatus
  refine ⟨hfail, ?_, ?_, ?_, ?_, ?_, ?_, ?_, ?_, ?_⟩
  · exact ⟨"Docker API call (".data, (") failed: " ++ s).data,
      by simp [strDataAppend, List.append_assoc]⟩
  · exact ⟨("Docker API call (" ++ req.path ++ ") failed: ").data, [],
      by simp [strDataAppend, List.append_assoc]⟩
  · intro i hreq
    subst hreq
    rw [pull_image_eval, hfail]
  · intro id hreq
    subst hreq
    rw [start_container_eval, hfail]
  · intro id hreq
    subst hreq
    rw [stop_container_eval, hfail]
  · intro id hreq
    subst hreq
    rw [delete_container_eval, hfail]
  · intro r2 hreq
    subst hreq
    rw [find_images_eval, hfail]
  · intro i hreq
    subst hreq
    rw [find_containers_eval, hfail]
  · intro n js hreq
    subst hreq
    rw [create_container_raw_eval, hfail]

/-- `start_container_with_network_mode` is the composite with the
network-mode JSON body. -/
theorem network_mode_eq_composite (n i m : String) :
    start_container_with_network_mode n i m =
      compositeStart n i (jsonCreateContainer (CreateContainer.mk i m)) := rfl

/-- `start_container_with_port_binding` is the composite with the
port-binding JSON body. -/
theorem port_binding_eq_composite (n i : String) (cp hp : Nat) :
    start_container_with_port_binding n i cp hp =
      compositeStart n i (jsonCreateContainerPortBinding (portBindingSpec i cp hp)) := rfl

/-- Membership in the trace of a sequenced operation. -/
theorem mem_opBind_trace {α β : Type} (q : DRequest) (x : Op α) (f : α → Op β)
    (d : Daemon) :
    q ∈ (opBind x f d).2 ↔
      q ∈ (x d).2 ∨ ∃ a, (x d).1 = Res.ok a ∧ q ∈ (f a d).2 := by
  cases hx : x d with
  | mk r t =>
    cases r with
    | ok a => simp [opBind, hx]
    | fail m => simp [opBind, hx]
    | fatal => simp [opBind, hx]

/-- The pull request never occurs in the create-and-start tail of the
composite. -/
theorem pull_not_mem_tail (i n js : String) (d : Daemon) :
    pullImageReq i ∉
      (opBind (create_container_raw n js)
        (fun id => opBind (start_container id) (fun _ => opPure id)) d).2 := by
  intro hmem
  rw [mem_opBind_trace] at hmem
  rcases hmem with hmem | ⟨id, _, hmem⟩
  · rw [create_container_raw_eval] at hmem
    simp at hmem
    exact pullReq_ne_createReq i n (strBytes js) hmem
  · rw [mem_opBind_trace] at hmem
    rcases hmem with hmem | ⟨u, _, hmem⟩
    · rw [start_container_eval] at hmem
      simp at hmem
      exact pullReq_ne_startReq i id hmem
    · simp [opPure] at hmem

/-- The composite's first request is always the image listing. -/
theorem compositeStart_head (n i js : String) (d : Daemon) :
    (compositeStart n i js d).2.head? = some (findImagesReq i) := by
  simp only [compositeStart, opBind]
  rw [find_images_eval]
  cases hr : respond d (findImagesReq i) with
  | ok resp =>
    cases hp : parseImageList resp with
    | some l => simp [hp]
    | none => simp [hp]
  | fail m => simp
  | fatal => simp

/-- The composite issues the pull request exactly when the image listing
succeeded with an empty result. -/
theorem compositeStart_pull_mem (n i js : String) (d : Daemon) :
    pullImageReq i ∈ (compositeStart n i js d).2 ↔
      (find_images i d).1 = Res.ok [] := by
  simp only [compositeStart]
  rw [mem_opBind_trace]
  have ht : (find_images i d).2 = [findImagesReq i] := by rw [find_images_eval]
  constructor
  · rintro (hmem | ⟨l, hok, hmem⟩)
    · rw [ht] at hmem
      simp at hmem
      exact absurd hmem (pullReq_ne_findImagesReq i i)
    · rw [mem_opBind_trace] at hmem
      rcases hmem with hmem | ⟨u, _, hmem⟩
      · cases l with
        | nil => exact hok
        | cons c ls => simp [opPure] at hmem
      · exact absurd hmem (pull_not_mem_tail i n js d)
  · intro hok
    refine Or.inr ⟨[], hok, ?_⟩
    rw [mem_opBind_trace]
    left
    simp [pull_image_eval]

/-- When the composite returns an id, the image listing succeeded, the
creation call returned exactly that id, and the trace is find, then pull
exactly when the listing was empty, then create, then start. -/
theorem compositeStart_ok (n i js : String) (d : Daemon) (id : String)
    (h : (compositeStart n i js d).1 = Res.ok id) :
    ∃ l, (find_images i d).1 = Res.ok l ∧
      (create_container_raw n js d).1 = Res.ok id ∧
      (compositeStart n i js d).2 =
        [findImagesReq i] ++ (if l.isEmpty then [pullImageReq i] else []) ++
          [createContainerReq n (strBytes js), startContainerReq id] := by
  have hfe := find_images_eval i d
  cases hr : respond d (findImagesReq i) with
  | fail m =>
    rw [hr] at hfe
    simp [compositeStart, opBind, hfe] at h
  | fatal =>
    rw [hr] at hfe
    simp [compositeStart, opBind, hfe] at h
  | ok resp =>
    rw [hr] at hfe
    dsimp only at hfe
    cases hp : parseImageList resp with
    | none =>
      rw [hp] at hfe
      simp [compositeStart, opBind, hfe] at h
    | some l =>
      rw [hp] at hfe
      refine ⟨l, by rw [hfe], ?_⟩
      have hcc := create_container_raw_eval n js d
      cases l with
      | cons c ls =>
        cases hr3 : respond d (createContainerReq n (strBytes js)) with
        | fail m =>
          rw [hr3] at hcc
          simp [compositeStart, opBind, hfe, opPure, hcc] at h
        | fatal =>
          rw [hr3] at hcc
          simp [compositeStart, opBind, hfe, opPure, hcc] at h
        | ok resp3 =>
          rw [hr3] at hcc
          dsimp only at hcc
          cases hp3 : parseCreateContainerResult resp3 with
          | none =>
            rw [hp3] at hcc
            simp [compositeStart, opBind, hfe, opPure, hcc] at h
          | some ccr =>
            rw [hp3] at hcc
            have hst := start_container_eval ccr.id d
            cases hr4 : respond d (startContainerReq ccr.id) with
            | fail m =>
              rw [hr4] at hst
              simp [compositeStart, opBind, hfe, opPure, hcc, hst] at h
            | fatal =>
              rw [hr4] at hst
              simp [compositeStart, opBind, hfe, opPure, hcc, hst] at h
            | ok s4 =>
              rw [hr4] at hst
              simp [compositeStart, opBind, hfe, opPure, hcc, hst] at h
              subst h
              constructor
              · rw [hcc]
              · simp [compositeStart, opBind, hfe, opPure, hcc, hst]
      | nil =>
        have hpl := pull_image_eval i d
        cases hr2 : respond d (pullImageReq i) with
        | fail m =>
          rw [hr2] at hpl
          simp [compositeStart, opBind, hfe, hpl] at h
        | fatal =>
          rw [hr2] at hpl
          simp [compositeStart, opBind, hfe, hpl] at h
        | ok s2 =>
          rw [hr2] at hpl
          cases hr3 : respond d (createContainerReq n (strBytes js)) with
          | fail m =>
            rw [hr3] at hcc
            simp [compositeStart, opBind, hfe, hpl, opPure, hcc] at h
          | fatal =>
            rw [hr3] at hcc
            simp [compositeStart, opBind, hfe, hpl, opPure, hcc] at h
          | ok resp3 =>
            rw [hr3] at hcc
            dsimp only at hcc
            cases hp3 : parseCreateContainerResult resp3 with
            | none =>
              rw [hp3] at hcc
              simp [compositeStart, opBind, hfe, hpl, opPure, hcc] at h
            | some ccr =>
              rw [hp3] at hcc
              have hst := start_container_eval ccr.id d
              cases hr4 : respond d (startContainerReq ccr.id) with
              | fail m =>
                rw [hr4] at hst
                simp [compositeStart, opBind, hfe, hpl, opPure, hcc, hst] at h
              | fatal =>
                rw [hr4] at hst
                simp [compositeStart, opBind, hfe, hpl, opPure, hcc, hst] at h
              | ok s4 =>
                rw [hr4] at hst
                simp [compositeStart, opBind, hfe, hpl, opPure, hcc, hst] at h
                subst h
                constructor
                · rw [hcc]
                · simp [compositeStart, opBind, hfe, hpl, opPure, hcc, hst]

/-- C3: both composite start operations first call the image listing; they
issue the pull request exactly when the listing succeeded with an empty
result; and on success the trace is find, optional pull, create, start,
with the returned id being the one the creation call produced. -/
theorem C3_composite_start (d : Daemon) (name image mode : String) (cport hport : Nat) :
    ((start_container_with_network_mode name image mode d).2.head? =
      some (findImagesReq image)) ∧
    ((start_container_with_port_binding name image cport hport d).2.head? =
      some (findImagesReq image)) ∧
    (pullImageReq image ∈ (start_container_with_network_mode name image mode d).2 ↔
      (find_images image d).1 = Res.ok []) ∧
    (pullImageReq image ∈ (start_container_with_port_binding name image cport hport d).2 ↔
      (find_images image d).1 = Res.ok []) ∧
    (∀ id, (start_container_with_network_mode name image mode d).1 = Res.ok id →
      ∃ l, (find_images image d).1 = Res.ok l ∧
        (create_container name (CreateContainer.mk image mode) d).1 = Res.ok id ∧
        (start_container_with_network_mode name image mode d).2 =
          [findImagesReq image] ++
            (if l.isEmpty then [pullImageReq image] else []) ++
            [createContainerReq name
              (strBytes (jsonCreateContainer (CreateContainer.mk image mode))),
             startContainerReq id]) ∧
    (∀ id, (start_container_with_port_binding name image cport hport d).1 = Res.ok id →
      ∃ l, (find_images image d).1 = Res.ok l ∧
        (create_container_raw name
          (jsonCreateContainerPortBinding (portBindingSpec image cport hport)) d).1 =
          Res.ok id ∧
        (start_container_with_port_binding name image cport hport d).2 =
          [findImagesReq image] ++
            (if l.isEmpty then [pullImageReq image] else []) ++
            [createContainerReq name
              (strBytes (jsonCreateContainerPortBinding (portBindingSpec image cport hport))),
             startContainerReq id]) := by
  rw [network_mode_eq_composite, port_binding_eq_composite]
  exact ⟨compositeStart_head name image _ d, compositeStart_head name image _ d,
    compositeStart_pull_mem name image _ d, compositeStart_pull_mem name image _ d,
    fun id h => compositeStart_ok name image _ d id h,
    fun id h => compositeStart_ok name image _ d id h⟩

/-- C3 witness: on `dHappy` the network-mode composite succeeds with id
`cid1`, the listing was empty, and the trace is find, pull, create, start. -/
theorem C3_witness :
    ∃ l, (find_images "ubuntu:20.04" dHappy).1 = Res.ok l ∧
      (create_container "test" (CreateContainer.mk "ubuntu:20.04" "host") dHappy).1 =
        Res.ok "cid1" ∧
      (start_container_with_network_mode "test" "ubuntu:20.04" "host" dHappy).2 =
        [findImagesReq "ubuntu:20.04"] ++
          (if l.isEmpty then [pullImageReq "ubuntu:20.04"] else []) ++
          [createContainerReq "test"
            (strBytes (jsonCreateContainer (CreateContainer.mk "ubuntu:20.04" "host"))),
           startContainerReq "cid1"] :=
  (C3_composite_start dHappy "test" "ubuntu:20.04" "host" 80 81).2.2.2.2.1 "cid1" (by decide)

/-- C4: the port-binding create body for image `ubuntu:20.04`, container
port 80, host port 81 serializes to exactly the expected JSON text, and a
create spec populates exactly one of the two shapes. -/
theorem C4_port_binding_json :
    jsonCreateContainerPortBinding (portBindingSpec "ubuntu:20.04" 80 81) =
      "\x7b\"Image\":\"ubuntu:20.04\",\"PortBindings\":\x7b\"80/tcp\":[\x7b\"HostPort\":\"81\"\x7d]\x7d\x7d" ∧
    (∀ s : CreateSpec, hasNetworkModeShape s = true ↔ hasPortBindingShape s = false) := by
  constructor
  · decide
  · intro s
    cases s <;> simp [hasNetworkModeShape, hasPortBindingShape]

/-- C5: both listing operations issue a single GET whose path carries the
JSON filter, serialized first and percent-encoded as one query-parameter
value; the encoded values for `nginx:latest` and `abc123` decode back to
exactly the expected JSON strings. -/
theorem C5_filters_query :
    (∀ reference, findImagesPath reference =
      "/images/json?filters=" ++ urlencode (jsonImageFilter (ImageFilter.mk [reference]))) ∧
    (∀ id, findContainersPath id =
      "/containers/json?filters=" ++
        urlencode (jsonContainerFilter (ContainerFilter.mk [id]))) ∧
    (∀ reference d, (find_images reference d).2 =
      [DRequest.mk (findImagesPath reference) false false none]) ∧
    (∀ id d, (find_containers id d).2 =
      [DRequest.mk (findContainersPath id) false false none]) ∧
    percentDecode (urlencode (jsonImageFilter (ImageFilter.mk ["nginx:latest"]))) =
      some "\x7b\"reference\":[\"nginx:latest\"]\x7d" ∧
    percentDecode (urlencode (jsonContainerFilter (ContainerFilter.mk ["abc123"]))) =
      some "\x7b\"id\":[\"abc123\"]\x7d" := by
  refine ⟨fun _ => rfl, fun _ => rfl, ?_, ?_, by decide, by decide⟩
  · intro r d
    rw [find_images_eval]
    rfl
  · intro i d
    rw [find_containers_eval]
    rfl

/-- C6: when the matching list is nonempty and its first container has at
least one network entry, `get_container_ip` returns the ip address of the
first such entry — an entry of that first container's networks map. -/
theorem C6_get_container_ip (d : Daemon) (id : String) (c : ContainerDescriptor)
    (rest : List ContainerDescriptor) (nm : String) (nw : Network)
    (more : List (String × Network))
    (h1 : (find_containers id d).1 = Res.ok (c :: rest))
    (h2 : c.network_settings.networks = (nm, nw) :: more) :
    (get_container_ip id d).1 = Res.ok nw.ip_address ∧
    (nm, nw) ∈ c.network_settings.networks := by
  constructor
  · rw [get_container_ip_eval]
    simp [h1, h2]
  · rw [h2]
    exact List.mem_cons_self _ _

/-- C6 witness: on the concrete daemon response
`[{"Id":"x","NetworkSettings":{"Networks":{"bridge":{"IPAddress":"172.17.0.2"}}}}]`
the call returns `172.17.0.2`. -/
theorem C6_witness :
    (get_container_ip "x" (constDaemon (DResponse.mk 200 (strBytes
      "[\x7b\"Id\":\"x\",\"NetworkSettings\":\x7b\"Networks\":\x7b\"bridge\":\x7b\"IPAddress\":\"172.17.0.2\"\x7d\x7d\x7d\x7d]")))).1 =
      Res.ok "172.17.0.2" :=
  (C6_get_container_ip
    (constDaemon (DResponse.mk 200 (strBytes
      "[\x7b\"Id\":\"x\",\"NetworkSettings\":\x7b\"Networks\":\x7b\"bridge\":\x7b\"IPAddress\":\"172.17.0.2\"\x7d\x7d\x7d\x7d]")))
    "x"
    (ContainerDescriptor.mk "x" (NetworkSettings.mk [("bridge", Network.mk "172.17.0.2")]))
    [] "bridge" (Network.mk "172.17.0.2") [] (by decide) (by decide)).1

/-- C7: `get_container_ip` fails with the no-container message on an empty
match list and with the no-network message when the first match has no
network entries; the two messages are distinct and neither is the empty
string. -/
theorem C7_lookup_errors (d : Daemon) (id : String) :
    ((find_containers id d).1 = Res.ok [] →
      (get_container_ip id d).1 =
        Res.fail ("No containers found with ID = " ++ id)) ∧
    (∀ c rest, (find_containers id d).1 = Res.ok (c :: rest) →
      c.network_settings.networks = [] →
      (get_container_ip id d).1 =
        Res.fail ("No network found for container with ID = " ++ id)) ∧
    ("No containers found with ID = " ++ id ≠
      "No network found for container with ID = " ++ id) ∧
    ("No containers found with ID = " ++ id ≠ "") ∧
    ("No network found for container with ID = " ++ id ≠ "") := by
  refine ⟨?_, ?_, ?_, ?_, ?_⟩
  · intro h1
    rw [get_container_ip_eval]
    simp [h1]
  · intro c rest h1 h2
    rw [get_container_ip_eval]
    simp [h1, h2]
  · exact append_ne_of_take_ne _ _ _ _ 4 (by decide) (by decide) (by decide)
  · intro h
    have hd := congrArg String.data h
    rw [strDataAppend] at hd
    rcases List.append_eq_nil.mp hd with ⟨h1, _⟩
    exact absurd h1 (by decide)
  · intro h
    have hd := congrArg String.data h
    rw [strDataAppend] at hd
    rcases List.append_eq_nil.mp hd with ⟨h1, _⟩
    exact absurd h1 (by decide)

/-- C7 witness: the empty-list case on response `[]` and the empty-networks
case on a response whose only container has an empty networks map. -/
theorem C7_witness :
    (get_container_ip "missing" (constDaemon (DResponse.mk 200 (strBytes "[]")))).1 =
      Res.fail "No containers found with ID = missing" ∧
    (get_container_ip "x" (constDaemon (DResponse.mk 200 (strBytes
      "[\x7b\"Id\":\"x\",\"NetworkSettings\":\x7b\"Networks\":\x7b\x7d\x7d\x7d]")))).1 =
      Res.fail "No network found for container with ID = x" := by
  constructor
  · exact ((C7_lookup_errors (constDaemon (DResponse.mk 200 (strBytes "[]")))
      "missing").1 (by decide)).trans (by decide)
  · exact ((C7_lookup_errors (constDaemon (DResponse.mk 200 (strBytes
      "[\x7b\"Id\":\"x\",\"NetworkSettings\":\x7b\"Networks\":\x7b\x7d\x7d\x7d]")))
      "x").2.1 (ContainerDescriptor.mk "x" (NetworkSettings.mk [])) []
      (by decide) rfl).trans (by decide)

/-- C8 counterexample: on a response body that is not valid UTF-8 (the
single byte 255) the call does not return any error value — it panics
(`unwrap` on `std::str::from_utf8`, src/lib.rs line 246). -/
theorem C8_counterexample :
    (pull_image "ubuntu:20.04" (constDaemon (DResponse.mk 200 [255]))).1 = Res.fatal ∧
    (∀ m, (pull_image "ubuntu:20.04" (constDaemon (DResponse.mk 200 [255]))).1 ≠
      Res.fail m) := by
  have h1 : (pull_image "ubuntu:20.04" (constDaemon (DResponse.mk 200 [255]))).1 =
      Res.fatal := by decide
  refine ⟨h1, fun m h => ?_⟩
  rw [h1] at h
  exact Res.noConfusion h

/-- C8 (amended): a response body that is not valid UTF-8 makes
`send_request` fail fatally — by a panic, not by a returned error — after
its single request, with no retry. -/
theorem C8_utf8_panic (path : String) (post del : Bool) (body : Option (List Nat))
    (d : Daemon)
    (h : utf8DecodeString (d (DRequest.mk path post del body)).body = none) :
    send_request path post del body d =
      (Res.fatal, [DRequest.mk path post del body]) := by
  unfold send_request
  rw [respond_fatal d _ h]

/-- C8 witness: the panic outcome at the concrete non-UTF-8 body `[255]`. -/
theorem C8_witness :
    send_request "/containers/prune" true false none
        (constDaemon (DResponse.mk 200 [255])) =
      (Res.fatal, [DRequest.mk "/containers/prune" true false none]) :=
  C8_utf8_panic "/containers/prune" true false none
    (constDaemon (DResponse.mk 200 [255])) (by decide)

/-- C9: `prune_containers` returns success whatever the status of the
daemon's reply (any decodable body), in particular when the underlying
request failed; operations such as `stop_container` and `delete_container`
propagate the same underlying failure instead. -/
theorem C9_prune_suppresses (d : Daemon) (s : String)
    (h : utf8DecodeString (d pruneContainersReq).body = some s) :
    (prune_containers d).1 = Res.ok () ∧
    (prune_containers d).2 = [pruneContainersReq] ∧
    (∀ m, respond d pruneContainersReq = Res.fail m →
      (prune_containers d).1 = Res.ok ()) ∧
    (∀ id m, respond d (deleteContainerReq id) = Res.fail m →
      (delete_container id d).1 = Res.fail m) ∧
    (∀ id m, respond d (stopContainerReq id) = Res.fail m →
      (stop_container id d).1 = Res.fail m) := by
  refine ⟨?_, ?_, ?_, ?_, ?_⟩
  · rw [prune_containers_eval]
    dsimp only
    rw [respond_eval d pruneContainersReq s h]
    split
    · rename_i heq
      exact absurd heq (by split <;> simp)
    · rfl
  · rw [prune_containers_eval]
  · intro m hm
    simp [prune_containers_eval, hm]
  · intro id m hm
    simp [delete_container_eval, hm]
  · intro id m hm
    simp [stop_container_eval, hm]

/-- C9 witness: a daemon answering status 500 still lets
`prune_containers` report success. -/
theorem C9_witness :
    (prune_containers (constDaemon (DResponse.mk 500 (strBytes "boom")))).1 =
      Res.ok () :=
  (C9_prune_suppresses (constDaemon (DResponse.mk 500 (strBytes "boom"))) "boom"
    (by decide)).1

/-- C10: both cleanup variants issue the stop request first; once stop has
succeeded the network-mode variant deletes the container and the
port-binding variant prunes; a failing prune never fails the port-binding
variant; a failing stop aborts both before any cleanup request. -/
theorem C10_stop_and_cleanup (d : Daemon) (id : String) :
    ((stop_and_cleanup_container id d).2.head? = some (stopContainerReq id)) ∧
    ((stop_and_cleanup_container_port_binding id d).2.head? =
      some (stopContainerReq id)) ∧
    (∀ s, respond d (stopContainerReq id) = Res.ok s →
      (stop_and_cleanup_container id d).2 =
        [stopContainerReq id, deleteContainerReq id] ∧
      (stop_and_cleanup_container_port_binding id d).2 =
        [stopContainerReq id, pruneContainersReq]) ∧
    (∀ s s2, respond d (stopContainerReq id) = Res.ok s →
      utf8DecodeString (d pruneContainersReq).body = some s2 →
      (stop_and_cleanup_container_port_binding id d).1 = Res.ok ()) ∧
    (∀ m, respond d (stopContainerReq id) = Res.fail m →
      (stop_and_cleanup_container id d).1 = Res.fail m ∧
      (stop_and_cleanup_container id d).2 = [stopContainerReq id] ∧
      (stop_and_cleanup_container_port_binding id d).1 = Res.fail m ∧
      (stop_and_cleanup_container_port_binding id d).2 = [stopContainerReq id]) := by
  refine ⟨?_, ?_, ?_, ?_, ?_⟩
  · cases hr : respond d (stopContainerReq id) <;>
      simp [stop_and_cleanup_container, opBind, stop_container_eval, hr,
        delete_container_eval]
  · cases hr : respond d (stopContainerReq id) <;>
      simp [stop_and_cleanup_container_port_binding, opBind, stop_container_eval, hr,
        prune_containers_eval]
  · intro s hr
    constructor
    · simp [stop_and_cleanup_container, opBind, stop_container_eval, hr,
        delete_container_eval]
    · simp [stop_and_cleanup_container_port_binding, opBind, stop_container_eval, hr,
        prune_containers_eval]
  · intro s s2 hr hdec
    have hp : (prune_containers d).1 = Res.ok () := by
      rw [prune_containers_eval]
      dsimp only
      rw [respond_eval d pruneContainersReq s2 hdec]
      split
      · rename_i heq
        exact absurd heq (by split <;> simp)
      · rfl
    simp [stop_and_cleanup_container_port_binding, opBind, stop_container_eval, hr]
    have hpe := prune_containers_eval d
    rw [show prune_containers d = _ from hpe] at hp
    rw [show prune_containers d = _ from hpe]
    dsimp only at hp ⊢
    exact hp
  · intro m hr
    refine ⟨?_, ?_, ?_, ?_⟩ <;>
      simp [stop_and_cleanup_container, stop_and_cleanup_container_port_binding,
        opBind, stop_container_eval, hr]

/-- C10 witness: on a daemon that accepts the stop but answers status 500
to the prune, the port-binding cleanup still reports success after the
trace stop-then-prune. -/
theorem C10_witness :
    (stop_and_cleanup_container_port_binding "c1" dStopOkPruneFail).1 = Res.ok () ∧
    (stop_and_cleanup_container_port_binding "c1" dStopOkPruneFail).2 =
      [stopContainerReq "c1", pruneContainersReq] :=
  ⟨(C10_stop_and_cleanup dStopOkPruneFail "c1").2.2.2.1 "" "prune broke"
      (by decide) (by decide),
   ((C10_stop_and_cleanup dStopOkPruneFail "c1").2.2.1 "" (by decide)).2⟩

/-- C2 witness: a daemon answering status 500 with body `internal error`
makes `stop_container` fail with a message containing the request path and
the body text. -/
theorem C2_witness :
    (stop_container "6fe66725ed81"
        (constDaemon (DResponse.mk 500 (strBytes "internal error")))).1 =
      Res.fail "Docker API call (/containers/6fe66725ed81/stop) failed: internal error" ∧
    (∃ l r,
      ("Docker API call (/containers/6fe66725ed81/stop) failed: internal error" : String).data =
        l ++ ("/containers/6fe66725ed81/stop" : String).data ++ r) ∧
    (∃ l r,
      ("Docker API call (/containers/6fe66725ed81/stop) failed: internal error" : String).data =
        l ++ ("internal error" : String).data ++ r) := by
  refine ⟨?_,
    ⟨("Docker API call (" : String).data, (") failed: internal error" : String).data,
      by decide⟩,
    ⟨("Docker API call (/containers/6fe66725ed81/stop) failed: " : String).data, [],
      by decide⟩⟩
  have h := C2_api_error (constDaemon (DResponse.mk 500 (strBytes "internal error")))
    (stopContainerReq "6fe66725ed81") "internal error" (by decide) (by decide)
  exact (h.2.2.2.2.2.1 "6fe66725ed81" rfl).trans (by decide)
